import Mathlib

/-!
Verification of the openshift-tuned node agent (cmd/openshift-tuned.go):
a shallow embedding of its reconciliation engine — label-diff functions,
watch-event handlers, the reload action, the change-watcher dispatch loop
and the retry wrapper — together with theorems about the embedded code.

Go maps are modelled as `Option` of an association list: `none` stands for
a nil map, `some l` for a non-nil map with entry list `l` (keys unique, as
in Go).  `reflect.DeepEqual` on maps distinguishes nil from empty and is
otherwise order-insensitive key/value equality, which is what `deepEqual`
below computes.
-/

set_option synthInstance.maxSize 1024

namespace OpenshiftTuned

/-- Entry list of a Go `map[string]string`. -/
abbrev Entries := List (String × String)

/-- Go `map[string]string` (`none` = nil map). -/
abbrev StrMap := Option Entries

/-- Lookup in an entry list (Go `m[k]` for a present key). -/
def lookupE (l : Entries) (k : String) : Option String :=
  (l.find? (fun p => p.1 == k)).map (fun p => p.2)

/-- Every entry of `a` appears, with the same value, in `b`. -/
def entriesSubsetB (a b : Entries) : Bool :=
  a.all (fun p => lookupE b p.1 == some p.2)

/-- Key/value equality of two entry lists (insertion order irrelevant). -/
def entriesEqualB (a b : Entries) : Bool :=
  entriesSubsetB a b && entriesSubsetB b a

/-- `reflect.DeepEqual` on two Go `map[string]string` values:
nil equals only nil; non-nil maps compare by key/value content. -/
def deepEqual (a b : StrMap) : Bool :=
  match a, b with
  | none, none => true
  | some x, some y => entriesEqualB x y
  | _, _ => false

/-- Go indexing `m[k]` on a `map[string]string`: nil map or missing key
yields the zero value `""`'s absence, i.e. `none`. -/
def lookupSM (m : StrMap) (k : String) : Option String :=
  match m with
  | none => none
  | some l => lookupE l k

/-- Entry list of a Go `map[string]map[string]string`. -/
abbrev PodEntries := List (String × StrMap)

/-- Go `map[string]map[string]string` (`none` = nil map). -/
abbrev PodMap := Option PodEntries

/-- Lookup in the pod-index entry list. -/
def lookupPME (l : PodEntries) (k : String) : Option StrMap :=
  (l.find? (fun p => p.1 == k)).map (fun p => p.2)

/-- Every entry of `a` appears in `b` with a `deepEqual` value. -/
def pmSubsetB (a b : PodEntries) : Bool :=
  a.all (fun p =>
    match lookupPME b p.1 with
    | some v => deepEqual p.2 v
    | none => false)

/-- `reflect.DeepEqual` on two Go `map[string]map[string]string` values. -/
def deepEqualPM (a b : PodMap) : Bool :=
  match a, b with
  | none, none => true
  | some x, some y => pmSubsetB x y && pmSubsetB y x
  | _, _ => false

/-- Go indexing `m[k]` on `map[string]map[string]string`: nil map or
missing key gives the zero value, a nil `map[string]string`. -/
def lookupPM (m : PodMap) (k : String) : StrMap :=
  match m with
  | none => none
  | some l => (lookupPME l k).getD none

/-- Go `delete(m, k)` on a non-nil pod index (no-op on a nil map). -/
def deletePM (m : PodMap) (k : String) : PodMap :=
  match m with
  | none => none
  | some l => some (l.filter (fun p => p.1 != k))

/-- Go `m[k] = v` on a non-nil pod index. -/
def insertPM (m : PodMap) (k : String) (v : StrMap) : PodMap :=
  match m with
  | none => some [(k, v)]
  | some l => some (l.filter (fun p => p.1 != k) ++ [(k, v)])

/-- `tunedState` (cmd/openshift-tuned.go): last-known node labels, pod
label index, next scheduled pod pull time, and the three change flags. -/
structure TunedState where
  nodeLabels : StrMap
  podLabels : PodMap
  podLabelsPullTime : Int
  changeNode : Bool
  changePod : Bool
  changeCfg : Bool
  deriving DecidableEq, Repr

/-- `resyncPeriodNodeMax`: ceiling of the exponential backoff, seconds. -/
def resyncPeriodNodeMax : Int := 3600

/-- `resyncPeriodPodDefault`: pod-label full-pull period, seconds. -/
def resyncPeriodPodDefault : Int := 3600 * 8

/-- `watch.EventType` of the Kubernetes watch package. -/
inductive WatchEventType where
  | added
  | modified
  | deleted
  | bookmark
  | error
  deriving DecidableEq, Repr

/-- The runtime object carried by a watch event: a pod, a node, or some
payload of an unexpected type (the failed type-assertion case). -/
inductive WatchObject where
  | pod (ns name : String) (labels : StrMap)
  | node (name : String) (labels : StrMap)
  | other
  deriving DecidableEq, Repr

/-- `watch.Event`: an event type plus its payload object. -/
structure WatchEvent where
  type : WatchEventType
  object : WatchObject
  deriving DecidableEq, Repr

/-- `nodeChangeHandler` (cmd/openshift-tuned.go:481): decode the payload
as a node; on label difference (per `reflect.DeepEqual`) replace the
stored labels and set the node-changed flag; a payload of the wrong type
is logged and ignored. -/
def nodeChangeHandler (event : WatchEvent) (tuned : TunedState) : TunedState :=
  match event.object with
  | .node _ labels =>
    if !(deepEqual labels tuned.nodeLabels) then
      { tuned with nodeLabels := labels, changeNode := true }
    else
      tuned
  | _ => tuned

/-- `podLabelsUnique` (cmd/openshift-tuned.go:502): the subset of
`podLabels` whose key/value pair does not occur on any pod other than
`podNsName` in `podLabelsNodeWide`.  A nil node-wide index returns
`podLabels` itself; otherwise the result is a non-nil map (ranging over a
nil `podLabels` yields the empty map). -/
def podLabelsUnique (podLabelsNodeWide : PodMap) (podNsName : String)
    (podLabels : StrMap) : StrMap :=
  match podLabelsNodeWide with
  | none => podLabels
  | some idx =>
    some ((podLabels.getD []).filter (fun kv =>
      !(idx.any (fun hay =>
        hay.1 != podNsName && lookupSM hay.2 kv.1 == some kv.2))))

/-- `podLabelsNodeWideChange` (cmd/openshift-tuned.go:535): true iff the
change of `podNsName`'s labels to `podLabels` alters the set of labels
unique to that pod among all pods of the node-wide index. -/
def podLabelsNodeWideChange (podLabelsNodeWide : PodMap) (podNsName : String)
    (podLabels : StrMap) : Bool :=
  match podLabelsNodeWide with
  | none => podLabels != none && (podLabels.getD []).length > 0
  | some _ =>
    let oldPodLabelsUnique :=
      podLabelsUnique podLabelsNodeWide podNsName (lookupPM podLabelsNodeWide podNsName)
    let curPodLabelsUnique :=
      podLabelsUnique podLabelsNodeWide podNsName podLabels
    !(deepEqual oldPodLabelsUnique curPodLabelsUnique)

/-- `podChangeHandler` (cmd/openshift-tuned.go:559): decode the payload as
a pod; on a delete event with a non-nil index, record node-wide
significance of the removal and delete the entry; otherwise, on a label
difference with the stored entry, record significance of the new labels
and upsert the entry (materialising the index first if it was nil). -/
def podChangeHandler (event : WatchEvent) (tuned : TunedState) : TunedState :=
  match event.object with
  | .pod ns name labels =>
    let key := ns ++ "/" ++ name
    if event.type == .deleted && tuned.podLabels != none then
      let tuned :=
        { tuned with changePod :=
            tuned.changePod || podLabelsNodeWideChange tuned.podLabels key none }
      { tuned with podLabels := deletePM tuned.podLabels key }
    else if !(deepEqual labels (lookupPM tuned.podLabels key)) then
      let tuned :=
        { tuned with podLabels := some (tuned.podLabels.getD []) }
      let tuned :=
        { tuned with changePod :=
            tuned.changePod || podLabelsNodeWideChange tuned.podLabels key labels }
      { tuned with podLabels := insertPM tuned.podLabels key labels }
    else
      tuned
  | _ => tuned

/-- Outcome of the external I/O the reload action performs: whether each
dump/read/extract/signal step would succeed, and what the two profile
reads would return (`none` = the read itself fails). -/
structure ReloaderEnv where
  podDumpOk : Bool
  nodeDumpOk : Bool
  activeProfile : Option String
  recommendedProfile : Option String
  extractOk : Bool
  reloadOk : Bool
  deriving DecidableEq, Repr

/-- External actions `timedTunedReloader` can perform, in the order it
attempts them. -/
inductive TunedAction where
  | dumpPodLabels
  | dumpNodeLabels
  | getActive
  | getRecommended
  | extractProfiles
  | reloadTuned
  deriving DecidableEq, Repr

/-- Result of one invocation of the reload action: the state left behind
(flags consumed), the external actions attempted, and whether the
invocation returned an error. -/
structure ReloadOutcome where
  state : TunedState
  actions : List TunedAction
  error : Bool
  deriving DecidableEq, Repr

/-- `timedTunedReloader` (cmd/openshift-tuned.go:600): consume the pod
flag and dump pod labels, consume the node flag and dump node labels; if
either was set, read the active and recommended profiles and require a
reload when they differ; consume the config flag, re-extract profiles and
require a reload unconditionally; finally reload if required.  The first
failing I/O step aborts the action with that error. -/
def timedTunedReloader (env : ReloaderEnv) (t0 : TunedState) : ReloadOutcome :=
  let t1 := if t0.changePod then { t0 with changePod := false } else t0
  let acts1 : List TunedAction :=
    if t0.changePod then [.dumpPodLabels] else []
  if t0.changePod && !env.podDumpOk then ⟨t1, acts1, true⟩ else
  let t2 := if t1.changeNode then { t1 with changeNode := false } else t1
  let acts2 := acts1 ++ (if t1.changeNode then [.dumpNodeLabels] else [])
  if t1.changeNode && !env.nodeDumpOk then ⟨t2, acts2, true⟩ else
  let labelsChanged := t0.changePod || t1.changeNode
  let acts3 := acts2 ++ (if labelsChanged then [.getActive] else [])
  if labelsChanged && env.activeProfile == none then ⟨t2, acts3, true⟩ else
  let acts4 := acts3 ++ (if labelsChanged then [.getRecommended] else [])
  if labelsChanged && env.recommendedProfile == none then ⟨t2, acts4, true⟩ else
  let reload1 := labelsChanged && env.activeProfile != env.recommendedProfile
  let t3 := if t2.changeCfg then { t2 with changeCfg := false } else t2
  let acts5 := acts4 ++ (if t2.changeCfg then [.extractProfiles] else [])
  if t2.changeCfg && !env.extractOk then ⟨t3, acts5, true⟩ else
  let reload := reload1 || t2.changeCfg
  let acts6 := acts5 ++ (if reload then [.reloadTuned] else [])
  ⟨t3, acts6, reload && !env.reloadOk⟩

/-- Outcome of the external fetches of one full label pull: the node-label
fetch result, the current Unix time, the pod-label fetch result, and the
jitter added when scheduling the next pod pull (`none` = fetch error). -/
structure PullEnv where
  nodeGet : Option StrMap
  nowUnix : Int
  podGet : Option PodMap
  jitter : Int
  deriving DecidableEq, Repr

/-- `pullLabels` (cmd/openshift-tuned.go:655): force-pull node labels and
compare/update; if the scheduled pod-pull time has been reached, pull pod
labels, schedule the next pod pull and compare/update the whole index.
`none` = a fetch failed and the error is returned. -/
def pullLabels (env : PullEnv) (t : TunedState) : Option TunedState :=
  match env.nodeGet with
  | none => none
  | some nodeLabels =>
    let t :=
      if !(deepEqual nodeLabels t.nodeLabels) then
        { t with nodeLabels := nodeLabels, changeNode := true }
      else t
    if env.nowUnix ≥ t.podLabelsPullTime then
      match env.podGet with
      | none => none
      | some podLabels =>
        let t :=
          { t with podLabelsPullTime :=
              env.nowUnix + resyncPeriodPodDefault + env.jitter }
        if !(deepEqualPM podLabels t.podLabels) then
          some { t with podLabels := podLabels, changePod := true }
        else some t
    else some t

/-- Observable outcome of one `tunedStop` invocation. -/
structure StopOutcome where
  signaledTerm : Bool
  waitedForExit : Bool
  ackAttempted : Bool
  error : Bool
  deriving DecidableEq, Repr

/-- `tunedStop` (cmd/openshift-tuned.go:298): with no tracked command
(`cmd == nil`) return nil at once; with a tracked command whose process
handle is present, send SIGTERM, wait for the exit notification, and —
only when invoked for a control-channel client — write the fixed "ok"
acknowledgement (a failed write is returned as an error); a tracked
command without a process handle is an error returned before any wait or
acknowledgement. -/
def tunedStop (cmdTracked processPresent client connWriteOk : Bool) : StopOutcome :=
  if !cmdTracked then ⟨false, false, false, false⟩
  else if processPresent then
    if client then ⟨true, true, true, !connWriteOk⟩
    else ⟨true, true, false, false⟩
  else ⟨false, false, false, true⟩

/-- The event classes of `changeWatcher`'s multiplexed `select`
(cmd/openshift-tuned.go:795-861), one constructor per `case`, each
carrying the data the case consumes.  `fsEvent` carries the fsnotify
`Op` bitmask (Create=1, Write=2, Remove=4, Rename=8, Chmod=16). -/
inductive LoopEvent where
  | done
  | sockConn (connErr : Bool) (data : String) (stopConnWriteOk : Bool)
  | tunedExit
  | fsEvent (op : Nat)
  | fsError
  | podEvent (chanOk : Bool) (event : WatchEvent)
  | tickerPull (env : PullEnv)
  | tickerReload (env : ReloaderEnv)
  deriving DecidableEq, Repr

/-- State owned by one `changeWatcher` invocation: the reconciler state
and the shared resync period (now/min). -/
structure LoopState where
  tuned : TunedState
  resyncNow : Int
  resyncMin : Int
  deriving DecidableEq, Repr

/-- What one handled event does to the loop: continue with a new state,
return nil (orderly stop), or return an error to the retry wrapper. -/
inductive StepResult where
  | cont (s : LoopState)
  | exitOk
  | exitErr
  deriving DecidableEq, Repr

/-- One iteration of `changeWatcher`'s `select`
(cmd/openshift-tuned.go:795-861), translated case by case:
termination signal → stop tuned, return nil; a control-channel
connection → error on accept failure, orderly nil return on "stop",
ignore anything else; tuned exit → error; filesystem event → set the
config flag only when the `Op` includes Remove; filesystem watcher
error → error; pod watch event → error on a closed channel, else
`podChangeHandler`; pull ticker → `pullLabels` (error fails the loop),
then halve the resync period when still at least the minimum; reload
ticker → `timedTunedReloader` (error fails the loop). -/
def changeWatcherStep (e : LoopEvent) (s : LoopState) : StepResult :=
  match e with
  | .done => .exitOk
  | .sockConn connErr data _ =>
    if connErr then .exitErr
    else if data == "stop" then .exitOk
    else .cont s
  | .tunedExit => .exitErr
  | .fsEvent op =>
    if Nat.land op 4 == 4 then
      .cont { s with tuned := { s.tuned with changeCfg := true } }
    else .cont s
  | .fsError => .exitErr
  | .podEvent chanOk ev =>
    if !chanOk then .exitErr
    else .cont { s with tuned := podChangeHandler ev s.tuned }
  | .tickerPull env =>
    match pullLabels env s.tuned with
    | none => .exitErr
    | some t =>
      if Int.tdiv s.resyncNow 2 ≥ s.resyncMin then
        .cont { s with tuned := t, resyncNow := Int.tdiv s.resyncNow 2 }
      else .cont { s with tuned := t }
  | .tickerReload env =>
    let o := timedTunedReloader env s.tuned
    if o.error then .exitErr
    else .cont { s with tuned := o.state }

/-- What the retry wrapper observes about one `changeWatcher` attempt:
whether it returned an error, whether a termination signal was already
pending at the post-attempt check, and whether one arrived during the
backoff sleep. -/
structure AttemptOutcome where
  err : Bool
  doneAfterFail : Bool
  doneDuringSleep : Bool
  deriving DecidableEq, Repr

/-- Return state of `retryLoop`: `finished errIsNil` when the function
returned (`errIsNil` = it returned a nil error), `running now` when the
supplied attempt trace is exhausted with the loop still going and resync
period `now`. -/
inductive RetryResult where
  | finished (errIsNil : Bool)
  | running (resyncNow : Int)
  deriving DecidableEq, Repr

/-- `retryLoop` (cmd/openshift-tuned.go:865), driven by a trace of
attempt outcomes: a nil attempt breaks the loop (nil return); on an
error, a pending termination signal returns that error; otherwise the
resync period is doubled and, past `resyncPeriodNodeMax`, the loop breaks
returning the error; a signal during the backoff sleep returns nil, else
the next attempt runs with the doubled period. -/
def retryLoop (now min : Int) : List AttemptOutcome → RetryResult
  | [] => .running now
  | a :: rest =>
    if !a.err then .finished true
    else if a.doneAfterFail then .finished false
    else
      let now2 := now * 2
      if now2 > resyncPeriodNodeMax then .finished false
      else if a.doneDuringSleep then .finished true
      else retryLoop now2 min rest

/-- `main` (cmd/openshift-tuned.go:899) around `retryLoop`: the initial
resync period (jittered) seeds both `now` and `min`; a non-nil error from
`retryLoop` is a panic, i.e. a non-zero process exit.  `none` = the trace
is exhausted before the process exits. -/
def mainExitsZero (minResync : Int) (trace : List AttemptOutcome) : Option Bool :=
  match retryLoop minResync minResync trace with
  | .finished errIsNil => some errIsNil
  | .running _ => none

/-! ## Helper lemmas -/

theorem find?_filter_ne_self (l : PodEntries) (k : String) :
    (l.filter (fun p => p.1 != k)).find? (fun p => p.1 == k) = none := by
  induction l with
  | nil => rfl
  | cons a l ih =>
    by_cases h : a.1 = k
    · simp [List.filter_cons, h, ih]
    · simp [List.filter_cons, h, List.find?, ih]

theorem find?_filter_ne_other (l : PodEntries) (k k' : String) (hk : k' ≠ k) :
    (l.filter (fun p => p.1 != k)).find? (fun p => p.1 == k')
      = l.find? (fun p => p.1 == k') := by
  induction l with
  | nil => rfl
  | cons a l ih =>
    by_cases h : a.1 = k
    · have h1 : (a.1 != k) = false := by simp [h]
      have h2 : (a.1 == k') = false := by
        rw [beq_eq_false_iff_ne, h]
        exact fun hc => hk hc.symm
      simp [List.filter_cons, h1, List.find?_cons, h2, ih]
    · have h1 : (a.1 != k) = true := by simp [h]
      by_cases h' : a.1 = k'
      · have h2 : (a.1 == k') = true := by simp [h']
        simp [List.filter_cons, h1, List.find?_cons, h2]
      · have h2 : (a.1 == k') = false := by simp [h']
        simp [List.filter_cons, h1, List.find?_cons, h2, ih]

theorem find?_false (l : PodEntries) :
    l.find? (fun _ => false) = none := by
  induction l <;> simp [List.find?, *]

theorem podChangeHandler_changeNode (ev : WatchEvent) (t : TunedState) :
    (podChangeHandler ev t).changeNode = t.changeNode := by
  rcases ev with ⟨ty, obj⟩
  cases obj <;> simp only [podChangeHandler] <;> repeat' split <;> simp

theorem podChangeHandler_changeCfg (ev : WatchEvent) (t : TunedState) :
    (podChangeHandler ev t).changeCfg = t.changeCfg := by
  rcases ev with ⟨ty, obj⟩
  cases obj <;> simp only [podChangeHandler] <;> repeat' split <;> simp

theorem pullLabels_changeCfg (env : PullEnv) (t t' : TunedState)
    (h : pullLabels env t = some t') : t'.changeCfg = t.changeCfg := by
  simp only [pullLabels] at h
  repeat' split at h
  all_goals first
    | exact Option.noConfusion h
    | (rw [Option.some.injEq] at h; subst h; rfl)

theorem timedTunedReloader_changeNode_false (env : ReloaderEnv) (t : TunedState)
    (h : t.changeNode = false) :
    (timedTunedReloader env t).state.changeNode = false := by
  rcases env with ⟨pd, nd, ap, rp, ex, rl⟩
  rcases t with ⟨nl, pl, pt, cn, cp, cc⟩
  simp only at h
  subst h
  cases cp <;> cases cc <;> cases pd <;> cases nd <;> cases ex <;>
    cases ap <;> cases rp <;> simp [timedTunedReloader]

theorem timedTunedReloader_changeCfg_false (env : ReloaderEnv) (t : TunedState)
    (h : t.changeCfg = false) :
    (timedTunedReloader env t).state.changeCfg = false := by
  rcases env with ⟨pd, nd, ap, rp, ex, rl⟩
  rcases t with ⟨nl, pl, pt, cn, cp, cc⟩
  simp only at h
  subst h
  cases cn <;> cases cp <;> cases pd <;> cases nd <;> cases ex <;>
    cases ap <;> cases rp <;> simp [timedTunedReloader]

/-! ## Claim theorems -/

/-- C1 counterexample: the loop's multiplexed wait has no node-watch
case; the only watch channel it selects on is the pod watch, and a
node-typed payload arriving there is ignored by `podChangeHandler`: with
stored node labels nil and an event carrying a node whose labels differ,
the loop step leaves the state unchanged — the stored node label set is
not replaced and the node-changed flag is not set. -/
theorem c1_counterexample :
    changeWatcherStep (.podEvent true ⟨.modified, .node "n" (some [("a", "b")])⟩)
        ⟨⟨none, none, 0, false, false, false⟩, 60, 60⟩
      = .cont ⟨⟨none, none, 0, false, false, false⟩, 60, 60⟩
  ∧ deepEqual (some [("a", "b")]) none = false := by
  constructor <;> rfl

/-- C1 (amended): `nodeChangeHandler` behaves as the claim describes —
a node payload whose labels differ from the stored set replaces the set
and sets node-changed, while equal labels and wrong-typed payloads leave
the state untouched — but the reconciliation loop's multiplexed wait
includes no node-watch event class: the handler is never invoked by a
loop step, and the only loop events that can set the node-changed flag
are full-pull ticker events. -/
theorem c1_node_labels_via_pull_only :
    (∀ (ty : WatchEventType) (nm : String) (ls : StrMap) (t : TunedState),
        (nodeChangeHandler ⟨ty, .node nm ls⟩ t).changeNode
          = (t.changeNode || !(deepEqual ls t.nodeLabels))
      ∧ (nodeChangeHandler ⟨ty, .node nm ls⟩ t).nodeLabels
          = (if deepEqual ls t.nodeLabels then t.nodeLabels else ls))
  ∧ (∀ (ty : WatchEventType) (ns nm : String) (ls : StrMap) (t : TunedState),
        nodeChangeHandler ⟨ty, .pod ns nm ls⟩ t = t)
  ∧ (∀ (ty : WatchEventType) (t : TunedState),
        nodeChangeHandler ⟨ty, .other⟩ t = t)
  ∧ (∀ (e : LoopEvent) (s s' : LoopState),
        changeWatcherStep e s = .cont s' →
        s.tuned.changeNode = false → s'.tuned.changeNode = true →
        ∃ env, e = .tickerPull env) := by
  refine ⟨?_, ?_, ?_, ?_⟩
  · intro ty nm ls t
    constructor
    · simp only [nodeChangeHandler]
      split <;> simp_all
    · simp only [nodeChangeHandler]
      split <;> simp_all
  · intro ty ns nm ls t; rfl
  · intro ty t; rfl
  · intro e s s' hstep h0 h1
    cases e with
    | done => exact StepResult.noConfusion hstep
    | sockConn connErr data w =>
      simp only [changeWatcherStep] at hstep
      repeat' split at hstep
      all_goals first
        | exact StepResult.noConfusion hstep
        | (rw [StepResult.cont.injEq] at hstep; subst hstep; rw [h0] at h1; exact Bool.noConfusion h1)
    | tunedExit => exact StepResult.noConfusion hstep
    | fsEvent op =>
      simp only [changeWatcherStep] at hstep
      split at hstep <;>
        (rw [StepResult.cont.injEq] at hstep; subst hstep; simp_all)
    | fsError => exact StepResult.noConfusion hstep
    | podEvent chanOk ev =>
      simp only [changeWatcherStep] at hstep
      split at hstep
      · exact StepResult.noConfusion hstep
      · rw [StepResult.cont.injEq] at hstep
        subst hstep
        simp only [podChangeHandler_changeNode] at h1
        rw [h0] at h1
        exact Bool.noConfusion h1
    | tickerPull env => exact ⟨env, rfl⟩
    | tickerReload env =>
      simp only [changeWatcherStep] at hstep
      split at hstep
      · exact StepResult.noConfusion hstep
      · rw [StepResult.cont.injEq] at hstep
        subst hstep
        have := timedTunedReloader_changeNode_false env s.tuned h0
        simp only [this] at h1
        exact Bool.noConfusion h1

/-- C1 witness: the amended theorem applied to a concrete full-pull event
that sets the node-changed flag from a nil stored label set. -/
theorem c1_witness :
    ∃ env, (LoopEvent.tickerPull ⟨some (some [("a", "b")]), 0, some none, 0⟩)
      = LoopEvent.tickerPull env :=
  c1_node_labels_via_pull_only.2.2.2
    (.tickerPull ⟨some (some [("a", "b")]), 0, some none, 0⟩)
    ⟨⟨none, none, 0, false, false, false⟩, 60, 60⟩
    ⟨⟨some [("a", "b")], none, 28800, true, false, false⟩, 60, 60⟩
    (by decide) rfl rfl

/-- C2: with every I/O step succeeding, the reload action requests a
tuned reload iff (a label flag was consumed and the active profile
differs from the recommended one) or the config flag was consumed — the
config path also re-extracts the profile bundle; and in the concrete
scenario pod-changed with active = recommended = "balanced", the pod
label file is rewritten and no reload is requested. -/
theorem c2_reload_iff :
    (∀ (env : ReloaderEnv) (t : TunedState) (a r : String),
        env.podDumpOk = true → env.nodeDumpOk = true →
        env.activeProfile = some a → env.recommendedProfile = some r →
        env.extractOk = true →
        (TunedAction.reloadTuned ∈ (timedTunedReloader env t).actions ↔
          (((t.changePod = true ∨ t.changeNode = true) ∧ a ≠ r)
            ∨ t.changeCfg = true))
      ∧ (t.changeCfg = true →
          TunedAction.extractProfiles ∈ (timedTunedReloader env t).actions))
  ∧ (TunedAction.dumpPodLabels ∈
        (timedTunedReloader ⟨true, true, some "balanced", some "balanced", true, true⟩
          ⟨none, none, 0, false, true, false⟩).actions
      ∧ TunedAction.reloadTuned ∉
        (timedTunedReloader ⟨true, true, some "balanced", some "balanced", true, true⟩
          ⟨none, none, 0, false, true, false⟩).actions) := by
  constructor
  · intro env t a r hpd hnd hap hrp hex
    rcases env with ⟨pd, nd, ap, rp, ex, rl⟩
    simp only at hpd hnd hap hrp hex
    subst hpd; subst hnd; subst hap; subst hrp; subst hex
    rcases t with ⟨nl, pl, pt, cn, cp, cc⟩
    by_cases har : a = r
    · subst har
      cases cn <;> cases cp <;> cases cc <;> simp [timedTunedReloader]
    · cases cn <;> cases cp <;> cases cc <;> simp [timedTunedReloader, har]
  · constructor <;> decide

/-- C2 witness: the reload-iff applied at a concrete state with the pod
flag set and differing profiles, yielding a requested reload. -/
theorem c2_witness :
    TunedAction.reloadTuned ∈
      (timedTunedReloader ⟨true, true, some "performance", some "balanced", true, true⟩
        ⟨none, none, 0, false, true, false⟩).actions :=
  ((c2_reload_iff.1 ⟨true, true, some "performance", some "balanced", true, true⟩
      ⟨none, none, 0, false, true, false⟩ "performance" "balanced"
      rfl rfl rfl rfl rfl).1).mpr (Or.inl ⟨Or.inl rfl, by decide⟩)

/-- C3 counterexample: a termination signal observed by the retry wrapper
immediately after a failed loop attempt makes `retryLoop` return that
attempt's (non-nil) error, so the process exits non-zero — refuting the
claim that a termination signal at any point exits with no error. -/
theorem c3_counterexample :
    mainExitsZero 60 [⟨true, true, false⟩] = some false := by decide

/-- C3 (amended): a termination signal observed by the reconciliation
loop's wait makes the loop return nil, a nil loop return makes the
wrapper return nil, and a signal during the backoff sleep returns nil —
all zero-exit paths; but a signal already pending at the wrapper's check
right after a failed attempt returns that attempt's error, a non-zero
exit. -/
theorem c3_signal_exit_paths :
    (∀ s : LoopState, changeWatcherStep .done s = .exitOk)
  ∧ (∀ (now min : Int) (a : AttemptOutcome) (rest : List AttemptOutcome),
        a.err = false → retryLoop now min (a :: rest) = .finished true)
  ∧ (∀ (now min : Int) (a : AttemptOutcome) (rest : List AttemptOutcome),
        a.err = true → a.doneAfterFail = false → now * 2 ≤ resyncPeriodNodeMax →
        a.doneDuringSleep = true →
        retryLoop now min (a :: rest) = .finished true)
  ∧ (∀ (now min : Int) (a : AttemptOutcome) (rest : List AttemptOutcome),
        a.err = true → a.doneAfterFail = true →
        retryLoop now min (a :: rest) = .finished false)
  ∧ mainExitsZero 60 [⟨false, false, false⟩] = some true := by
  refine ⟨fun s => rfl, ?_, ?_, ?_, by decide⟩
  · intro now min a rest h
    rcases a with ⟨ae, ad, as⟩
    simp only at h
    subst h
    simp [retryLoop]
  · intro now min a rest h1 h2 h3 h4
    rcases a with ⟨ae, ad, as⟩
    simp only at h1 h2 h4
    subst h1; subst h2; subst h4
    simp [retryLoop, not_lt.mpr h3]
  · intro now min a rest h1 h2
    rcases a with ⟨ae, ad, as⟩
    simp only at h1 h2
    subst h1; subst h2
    simp [retryLoop]

/-- C3 witness: a failed attempt followed by a signal during the backoff
sleep exits zero, by the amended theorem at concrete inputs. -/
theorem c3_witness :
    retryLoop 60 60 [⟨true, false, true⟩] = .finished true :=
  c3_signal_exit_paths.2.2.1 60 60 ⟨true, false, true⟩ [] rfl rfl
    (by decide) rfl

/-- C4 counterexample: `tunedStop` invoked on behalf of a control-channel
client while no child command is tracked (cmd nil) returns nil at once:
no "ok" acknowledgement is attempted on the client's connection, refuting
the claim that stop always acknowledges, including when no child process
is currently tracked. -/
theorem c4_counterexample :
    (tunedStop false false true true).ackAttempted = false
  ∧ (tunedStop false false true true).error = false := by
  constructor <;> rfl

/-- C4 (amended): `tunedStop` acknowledges only when a child command is
tracked and its process handle is present; then it signals, waits for the
exit notification, and attempts the fixed "ok" write to a control-channel
client.  With no tracked command it is a nil-returning no-op with no
acknowledgement; with a tracked command whose process handle is missing
it returns an error without waiting or acknowledging. -/
theorem c4_stop_ack_behaviour :
    (∀ w : Bool,
        (tunedStop true true true w).ackAttempted = true
      ∧ (tunedStop true true true w).signaledTerm = true
      ∧ (tunedStop true true true w).waitedForExit = true
      ∧ (tunedStop true true true w).error = !w)
  ∧ (∀ p c w : Bool,
        (tunedStop false p c w).ackAttempted = false
      ∧ (tunedStop false p c w).error = false)
  ∧ (∀ c w : Bool,
        (tunedStop true false c w).ackAttempted = false
      ∧ (tunedStop true false c w).waitedForExit = false
      ∧ (tunedStop true false c w).error = true) := by
  refine ⟨fun w => ?_, fun p c w => ?_, fun c w => ?_⟩ <;>
    cases w <;> simp [tunedStop]

/-- C5 counterexample: a pod deletion event received while the pod label
index is nil falls through to the add/modify branch: the deleted pod's
entry is ADDED to the index and the pod-changed flag set, refuting the
claim that a deletion never adds to the index in every index state
including a nil index. -/
theorem c5_counterexample :
    (podChangeHandler ⟨.deleted, .pod "ns" "p" (some [("app", "a")])⟩
        ⟨none, none, 0, false, false, false⟩).podLabels
      = some [("ns/p", some [("app", "a")])]
  ∧ (podChangeHandler ⟨.deleted, .pod "ns" "p" (some [("app", "a")])⟩
        ⟨none, none, 0, false, false, false⟩).changePod = true := by
  constructor <;> rfl

/-- C5 (amended): for every pod deletion event received while the pod
label index is non-nil, node-wide significance is evaluated against
removal of the pod's labels (a nil replacement), the pod's entry is
removed from — never added to — the index with all other entries
untouched, and the pod-changed flag is the previous flag or-ed with the
detected significance (so it is newly set only if significance was
detected).  A nil index skips the delete branch (see the
counterexample). -/
theorem c5_delete_removes_entry (t : TunedState) (idx : PodEntries)
    (ns name : String) (labels : StrMap) (h : t.podLabels = some idx) :
    lookupPM (podChangeHandler ⟨.deleted, .pod ns name labels⟩ t).podLabels
        (ns ++ "/" ++ name) = none
  ∧ (∀ k, k ≠ ns ++ "/" ++ name →
      lookupPM (podChangeHandler ⟨.deleted, .pod ns name labels⟩ t).podLabels k
        = lookupPM t.podLabels k)
  ∧ (podChangeHandler ⟨.deleted, .pod ns name labels⟩ t).changePod
      = (t.changePod
          || podLabelsNodeWideChange t.podLabels (ns ++ "/" ++ name) none) := by
  refine ⟨?_, ?_, ?_⟩
  · simp only [podChangeHandler, h]
    simp [deletePM, lookupPM, lookupPME, find?_filter_ne_self, find?_false]
  · intro k hk
    simp only [podChangeHandler, h]
    simp [deletePM, lookupPM, lookupPME, find?_filter_ne_other _ _ _ hk]
  · simp only [podChangeHandler, h]
    simp

/-- C5 witness: the amended deletion theorem applied at a concrete
one-entry index: the deleted pod's entry is gone afterwards. -/
theorem c5_witness :
    lookupPM (podChangeHandler ⟨.deleted, .pod "ns" "p" none⟩
        ⟨none, some [("ns/p", some [("app", "a")])], 0, false, false, false⟩).podLabels
      ("ns" ++ "/" ++ "p") = none :=
  (c5_delete_removes_entry
    ⟨none, some [("ns/p", some [("app", "a")])], 0, false, false, false⟩
    [("ns/p", some [("app", "a")])] "ns" "p" none rfl).1

/-- C6: in the retry wrapper each plain loop failure doubles the resync
period, terminating the process (error return, hence non-zero exit) as
soon as the doubled value exceeds the 3600-second ceiling; from the
default 60-second minimum, five consecutive failures double it to 1920
with the wrapper still retrying, and the sixth doubling (3840) terminates
the process. -/
theorem c6_backoff_doubling :
    (∀ (now min : Int) (a : AttemptOutcome) (rest : List AttemptOutcome),
        a.err = true → a.doneAfterFail = false → a.doneDuringSleep = false →
        retryLoop now min (a :: rest)
          = if now * 2 > resyncPeriodNodeMax then .finished false
            else retryLoop (now * 2) min rest)
  ∧ retryLoop 60 60 (List.replicate 5 ⟨true, false, false⟩) = .running 1920
  ∧ retryLoop 60 60 (List.replicate 6 ⟨true, false, false⟩) = .finished false
  ∧ mainExitsZero 60 (List.replicate 6 ⟨true, false, false⟩) = some false := by
  refine ⟨?_, by decide, by decide, by decide⟩
  intro now min a rest h1 h2 h3
  rcases a with ⟨ae, ad, as⟩
  simp only at h1 h2 h3
  subst h1; subst h2; subst h3
  simp [retryLoop]

/-- C6 witness: the doubling step applied at period 1800, where the
doubled value reaches exactly the ceiling and the wrapper retries. -/
theorem c6_witness :
    retryLoop 1800 60 [⟨true, false, false⟩]
      = if (1800 : Int) * 2 > resyncPeriodNodeMax then .finished false
        else retryLoop (1800 * 2) 60 [] :=
  c6_backoff_doubling.1 1800 60 ⟨true, false, false⟩ [] rfl rfl rfl

/-- C7: in the index with P1={app:a} and P2={app:a},
`podLabelsNodeWideChange` (the spec's isNodeWideSignificant) returns true
for P1's labels becoming {app:b} (P1's unique-label set changes from the
empty set to {app:b}) and false for the removal of P1's app:a label,
still present on P2 (P1's unique set is empty before and after). -/
theorem c7_unique_label_significance :
    podLabelsNodeWideChange
      (some [("P1", some [("app", "a")]), ("P2", some [("app", "a")])]) "P1"
      (some [("app", "b")]) = true
  ∧ podLabelsNodeWideChange
      (some [("P1", some [("app", "a")]), ("P2", some [("app", "a")])]) "P1"
      (some []) = false := by
  constructor <;> rfl

/-- C8: a filesystem event whose operation bitmask lacks the Remove bit
(so any create and/or write event) leaves the loop state entirely
unchanged, and over all loop steps the config-changed flag can only be
newly set by a filesystem event whose operation includes Remove. -/
theorem c8_remove_only_sets_cfg :
    (∀ (op : Nat) (s : LoopState), Nat.land op 4 ≠ 4 →
        changeWatcherStep (.fsEvent op) s = .cont s)
  ∧ (∀ (e : LoopEvent) (s s' : LoopState),
        changeWatcherStep e s = .cont s' →
        s.tuned.changeCfg = false → s'.tuned.changeCfg = true →
        ∃ op, e = .fsEvent op ∧ Nat.land op 4 = 4) := by
  constructor
  · intro op s h
    have hb : (Nat.land op 4 == 4) = false := by simpa using h
    simp [changeWatcherStep, hb]
  · intro e s s' hstep h0 h1
    cases e with
    | done => exact StepResult.noConfusion hstep
    | sockConn connErr data w =>
      simp only [changeWatcherStep] at hstep
      repeat' split at hstep
      all_goals first
        | exact StepResult.noConfusion hstep
        | (rw [StepResult.cont.injEq] at hstep; subst hstep; rw [h0] at h1; exact Bool.noConfusion h1)
    | tunedExit => exact StepResult.noConfusion hstep
    | fsEvent op =>
      refine ⟨op, rfl, ?_⟩
      simp only [changeWatcherStep] at hstep
      split at hstep
      · simpa using ‹(Nat.land op 4 == 4) = true›
      · rw [StepResult.cont.injEq] at hstep
        subst hstep
        rw [h0] at h1
        exact Bool.noConfusion h1
    | fsError => exact StepResult.noConfusion hstep
    | podEvent chanOk ev =>
      simp only [changeWatcherStep] at hstep
      split at hstep
      · exact StepResult.noConfusion hstep
      · rw [StepResult.cont.injEq] at hstep
        subst hstep
        simp only [podChangeHandler_changeCfg] at h1
        rw [h0] at h1
        exact Bool.noConfusion h1
    | tickerPull env =>
      simp only [changeWatcherStep] at hstep
      repeat' split at hstep
      all_goals first
        | exact StepResult.noConfusion hstep
        | (rw [StepResult.cont.injEq] at hstep; subst hstep; rename_i t' hpull _; rw [pullLabels_changeCfg env s.tuned t' hpull, h0] at h1; exact Bool.noConfusion h1)
    | tickerReload env =>
      simp only [changeWatcherStep] at hstep
      split at hstep
      · exact StepResult.noConfusion hstep
      · rw [StepResult.cont.injEq] at hstep
        subst hstep
        have := timedTunedReloader_changeCfg_false env s.tuned h0
        simp only [this] at h1
        exact Bool.noConfusion h1

/-- C8 witness: the only-Remove direction applied to a concrete remove
event that sets the config flag from false. -/
theorem c8_witness :
    ∃ op, (LoopEvent.fsEvent 4) = .fsEvent op ∧ Nat.land op 4 = 4 :=
  c8_remove_only_sets_cfg.2 (.fsEvent 4)
    ⟨⟨none, none, 0, false, false, false⟩, 60, 60⟩
    ⟨⟨none, none, 0, false, false, true⟩, 60, 60⟩
    (by decide) rfl rfl

/-- C9: the resync-period invariant current ≥ minimum is preserved by
every loop step (halving only happens when the halved value is still at
least the minimum) and by the retry wrapper's doubling on failure, which
never drops the running period below the minimum. -/
theorem c9_resync_invariant :
    (∀ (e : LoopEvent) (s s' : LoopState),
        changeWatcherStep e s = .cont s' →
        s.resyncMin ≤ s.resyncNow →
        s'.resyncMin = s.resyncMin ∧ s'.resyncMin ≤ s'.resyncNow)
  ∧ (∀ (min now : Int) (trace : List AttemptOutcome) (n : Int),
        0 ≤ min → min ≤ now →
        retryLoop now min trace = .running n → min ≤ n) := by
  constructor
  · intro e s s' hstep hinv
    cases e with
    | done => exact StepResult.noConfusion hstep
    | sockConn connErr data w =>
      simp only [changeWatcherStep] at hstep
      repeat' split at hstep
      all_goals first
        | exact StepResult.noConfusion hstep
        | (rw [StepResult.cont.injEq] at hstep; subst hstep; exact ⟨rfl, hinv⟩)
    | tunedExit => exact StepResult.noConfusion hstep
    | fsEvent op =>
      simp only [changeWatcherStep] at hstep
      split at hstep
      all_goals (rw [StepResult.cont.injEq] at hstep; subst hstep; exact ⟨rfl, hinv⟩)
    | fsError => exact StepResult.noConfusion hstep
    | podEvent chanOk ev =>
      simp only [changeWatcherStep] at hstep
      split at hstep
      · exact StepResult.noConfusion hstep
      · rw [StepResult.cont.injEq] at hstep; subst hstep; exact ⟨rfl, hinv⟩
    | tickerPull env =>
      simp only [changeWatcherStep] at hstep
      repeat' split at hstep
      all_goals first
        | exact StepResult.noConfusion hstep
        | (rw [StepResult.cont.injEq] at hstep; subst hstep; exact ⟨rfl, by assumption⟩)
    | tickerReload env =>
      simp only [changeWatcherStep] at hstep
      split at hstep
      · exact StepResult.noConfusion hstep
      · rw [StepResult.cont.injEq] at hstep; subst hstep; exact ⟨rfl, hinv⟩
  · intro min now trace
    induction trace generalizing now with
    | nil =>
      intro n h0 h1 hr
      simp only [retryLoop] at hr
      rw [RetryResult.running.injEq] at hr
      subst hr
      exact h1
    | cons a rest ih =>
      intro n h0 h1 hr
      simp only [retryLoop] at hr
      repeat' split at hr
      all_goals first
        | exact RetryResult.noConfusion hr
        | exact ih (now * 2) n h0 (by linarith) hr

/-- C9 witness: the wrapper part applied to five concrete failures from
the default minimum, whose running period 1920 still dominates it. -/
theorem c9_witness : (60 : Int) ≤ 1920 :=
  c9_resync_invariant.2 60 60 (List.replicate 5 ⟨true, false, false⟩) 1920
    (by decide) (by decide) (by decide)

/-- C10: when an I/O step of the reload action fails, the action returns
an error with the flags already consumed in that invocation cleared and
the flags of steps not yet reached left as they were: a pod-dump failure
clears only the pod flag, a node-dump failure the pod and node flags, a
profile-read failure likewise, and an extract failure also the config
flag; and a failing reload action makes the loop step return the error. -/
theorem c10_failing_step_flags :
    (∀ (env : ReloaderEnv) (t : TunedState),
        t.changePod = true → env.podDumpOk = false →
        timedTunedReloader env t
          = ⟨{ t with changePod := false }, [.dumpPodLabels], true⟩)
  ∧ (∀ (env : ReloaderEnv) (t : TunedState),
        env.podDumpOk = true → t.changeNode = true → env.nodeDumpOk = false →
        timedTunedReloader env t
          = ⟨{ t with changePod := false, changeNode := false },
             (if t.changePod then [.dumpPodLabels] else []) ++ [.dumpNodeLabels],
             true⟩)
  ∧ (∀ (env : ReloaderEnv) (t : TunedState),
        env.podDumpOk = true → env.nodeDumpOk = true →
        (t.changePod = true ∨ t.changeNode = true) → env.activeProfile = none →
        (timedTunedReloader env t).error = true
      ∧ (timedTunedReloader env t).state
          = { t with changePod := false, changeNode := false })
  ∧ (∀ (env : ReloaderEnv) (t : TunedState),
        env.podDumpOk = true → env.nodeDumpOk = true →
        (t.changePod = true ∨ t.changeNode = true) →
        env.activeProfile ≠ none → env.recommendedProfile = none →
        (timedTunedReloader env t).error = true
      ∧ (timedTunedReloader env t).state
          = { t with changePod := false, changeNode := false })
  ∧ (∀ (env : ReloaderEnv) (t : TunedState),
        env.podDumpOk = true → env.nodeDumpOk = true →
        env.activeProfile ≠ none → env.recommendedProfile ≠ none →
        t.changeCfg = true → env.extractOk = false →
        (timedTunedReloader env t).error = true
      ∧ (timedTunedReloader env t).state
          = { t with changePod := false, changeNode := false, changeCfg := false })
  ∧ (∀ (env : ReloaderEnv) (s : LoopState),
        (timedTunedReloader env s.tuned).error = true →
        changeWatcherStep (.tickerReload env) s = .exitErr) := by
  refine ⟨?_, ?_, ?_, ?_, ?_, ?_⟩
  · intro env t h1 h2
    rcases env with ⟨pd, nd, ap, rp, ex, rl⟩
    rcases t with ⟨nl, pl, pt, cn, cp, cc⟩
    simp only at h1 h2
    subst h1; subst h2
    simp [timedTunedReloader]
  · intro env t h1 h2 h3
    rcases env with ⟨pd, nd, ap, rp, ex, rl⟩
    rcases t with ⟨nl, pl, pt, cn, cp, cc⟩
    simp only at h1 h2 h3
    subst h1; subst h2; subst h3
    cases cp <;> simp [timedTunedReloader]
  · intro env t h1 h2 h3 h4
    rcases env with ⟨pd, nd, ap, rp, ex, rl⟩
    rcases t with ⟨nl, pl, pt, cn, cp, cc⟩
    simp only at h1 h2 h3 h4
    subst h1; subst h2; subst h4
    cases cn <;> cases cp <;> rcases h3 with h3 | h3 <;>
      simp_all [timedTunedReloader]
  · intro env t h1 h2 h3 h4 h5
    rcases env with ⟨pd, nd, ap, rp, ex, rl⟩
    rcases t with ⟨nl, pl, pt, cn, cp, cc⟩
    simp only at h1 h2 h3 h4 h5
    subst h1; subst h2; subst h5
    rcases Option.ne_none_iff_exists'.mp h4 with ⟨av, hav⟩
    subst hav
    cases cn <;> cases cp <;> rcases h3 with h3 | h3 <;>
      simp_all [timedTunedReloader]
  · intro env t h1 h2 h3 h4 h5 h6
    rcases env with ⟨pd, nd, ap, rp, ex, rl⟩
    rcases t with ⟨nl, pl, pt, cn, cp, cc⟩
    simp only at h1 h2 h3 h4 h5 h6
    subst h1; subst h2; subst h5; subst h6
    rcases Option.ne_none_iff_exists'.mp h3 with ⟨av, hav⟩
    rcases Option.ne_none_iff_exists'.mp h4 with ⟨rv, hrv⟩
    subst hav; subst hrv
    cases cn <;> cases cp <;> simp [timedTunedReloader]
  · intro env s h
    simp [changeWatcherStep, h]

/-- C10 witness: the pod-dump-failure case applied at a concrete state
with all three flags set: only the pod flag is cleared, the others stay
set, and the action errors. -/
theorem c10_witness :
    timedTunedReloader ⟨false, true, some "x", some "x", true, true⟩
        ⟨none, none, 0, true, true, true⟩
      = ⟨⟨none, none, 0, true, false, true⟩, [.dumpPodLabels], true⟩ :=
  c10_failing_step_flags.1 ⟨false, true, some "x", some "x", true, true⟩
    ⟨none, none, 0, true, true, true⟩ rfl rfl

end OpenshiftTuned
